import Mathlib

/-!
Verification of the message-submission and response-polling protocol of the
single-page chat client in `src/App.tsx`.

The embedding models the two core functions `handleSubmit` and
`pollForResponse` as pure functions.  Network effects are supplied by an
environment: the result of the submission `fetch` and, for each retry index,
the result of the status-endpoint `fetch`.  Wall-clock timestamps
(`new Date()`) are abstracted away: they are carried by neither messages nor
requests here, since no verified property inspects them.  React state updates
`setMessages(prev => [...prev, m])` are modelled by returning the final
message list; `isTyping` and all presentation markup are out of scope.
-/

/-- The `type` tag of a `Message` in the source: `'user' | 'bot'`. -/
inductive MsgType where
  | user
  | bot
deriving DecidableEq, Repr

/-- `interface Message { type; content; timestamp }` with the wall-clock
timestamp abstracted away. -/
structure Message where
  type : MsgType
  content : String
deriving DecidableEq, Repr

/-- The greeting the conversation state is initialized with (line 23). -/
def greetingText : String :=
  "Hi! I\x27m MetaJungkok, powered by Jhunpaul. How can I help you today?"

/-- Initial value of the `messages` state (lines 20-26): one bot greeting. -/
def initialMessages : List Message :=
  [{ type := MsgType.bot, content := greetingText }]

/-- Timeout message appended when the retry bound is exceeded (line 49). -/
def timeoutReply : String :=
  "I apologize, but I didn\x27t receive a response in time. Please try again."

/-- Message appended by the `catch` of `pollForResponse` (line 83). -/
def pollErrorReply : String :=
  "I apologize, but I encountered an error while processing your request."

/-- Fallback used when a final poll response carries no content (line 76). -/
def fallbackReply : String :=
  "I apologize, but I couldn\x27t understand your request."

/-- Message of the error thrown when the parsed submission response has no
`messageId` field (line 142). -/
def noMessageIdError : String := "No messageId received in the response"

/-- The fixed delay, in milliseconds, passed to `setTimeout` between poll
attempts (line 60). -/
def retryDelayMs : Nat := 1000

/-- JavaScript `String.prototype.trim` (used in `input.trim()`, line 93),
modelled directly on the character sequence: whitespace is removed from both
ends.  (Core `String.trim` is extensionally the same but is defined by
well-founded recursion, which the kernel cannot evaluate; this definition is
kernel-computable.) -/
def jsTrim (s : String) : String :=
  String.mk
    (((s.data.dropWhile Char.isWhitespace).reverse.dropWhile
        Char.isWhitespace).reverse)

/-- JavaScript `v || fallback` on an optional string field: `undefined` and
the empty string are falsy. -/
def jsOrElse (v : Option String) (fallback : String) : String :=
  match v with
  | none => fallback
  | some s => if s.isEmpty then fallback else s

/-- JavaScript truthiness of an optional string field (`if (data.messageId)`,
line 139): `undefined` and the empty string are falsy. -/
def jsTruthy (v : Option String) : Bool :=
  match v with
  | none => false
  | some s => !s.isEmpty

/-- The body of a poll status response as read by `pollForResponse`:
`responseData.response?.content` (line 76).  `none` models the optional
chain yielding `undefined` (missing `response` or missing `content`). -/
structure PollData where
  responseContent : Option String
deriving DecidableEq, Repr

/-- An HTTP response of the status endpoint as observed by the poller:
the status code, whether the `Content-Type` header includes
`application/json`, the outcome of `response.json()` (`none` models a parse
exception), and the text body read by `response.text()`. -/
structure PollHttp where
  status : Nat
  isJson : Bool
  parsed : Option PollData
  textBody : String
deriving DecidableEq, Repr

/-- Result of one `fetch` of the status endpoint: a network/transport
rejection, or an HTTP response. -/
inductive PollFetch where
  | netErr
  | resp (r : PollHttp)
deriving DecidableEq, Repr

/-- `pollForResponse(messageId, retries)` (lines 45-89), modelled as a pure
function of the environment `env` mapping each retry index to that attempt's
fetch result.  Returns the list of messages the poll cycle appends (always
exactly one) and the number of status queries issued.  The guard, the 202
in-progress branch, the content-type dispatch, the fallback for missing
content and the catch-all error message follow the source line by line. -/
def pollForResponse (env : Nat → PollFetch) (retries : Nat) :
    List Message × Nat :=
  if _h : retries > 30 then
    ([{ type := MsgType.bot, content := timeoutReply }], 0)
  else
    match env retries with
    | PollFetch.netErr => ([{ type := MsgType.bot, content := pollErrorReply }], 1)
    | PollFetch.resp r =>
      if r.status = 202 then
        let rest := pollForResponse env (retries + 1)
        (rest.1, rest.2 + 1)
      else if r.isJson then
        match r.parsed with
        | none => ([{ type := MsgType.bot, content := pollErrorReply }], 1)
        | some d =>
          ([{ type := MsgType.bot, content := jsOrElse d.responseContent fallbackReply }], 1)
      else
        ([{ type := MsgType.bot, content := jsOrElse (some r.textBody) fallbackReply }], 1)
termination_by 31 - retries
decreasing_by omega

/-- The parsed body of a JSON submission response: the optional `messageId`
field checked on line 139. -/
structure SubmitData where
  messageId : Option String
deriving DecidableEq, Repr

/-- An HTTP response of the submission endpoint: status code, whether the
`Content-Type` includes `application/json`, the outcome of `response.json()`
(an `Except` whose error carries the thrown exception's message, surfaced by
the `catch` via `error.message`), and the text body. -/
structure SubmitHttp where
  status : Nat
  isJson : Bool
  parsed : Except String SubmitData
  textBody : String
deriving Repr

/-- Result of the submission `fetch`: a network rejection carrying the
exception's message (surfaced via `error.message` in the catch), or an HTTP
response. -/
inductive SubmitFetch where
  | netErr (emsg : String)
  | resp (r : SubmitHttp)
deriving Repr

/-- `response.ok`: status in the inclusive range 200-299. -/
def httpOk (status : Nat) : Bool := 200 ≤ status && status ≤ 299

/-- The status-specific reason appended by the `switch` on lines 147-165. -/
def statusReason (status : Nat) : String :=
  if status = 400 then "Invalid request format"
  else if status = 401 then "Unauthorized access"
  else if status = 403 then "Access forbidden"
  else if status = 429 then "Too many requests, please try again later"
  else if status = 500 then "Internal server error"
  else "Unexpected error occurred"

/-- The full error message built for a non-ok submission status
(lines 145-165): the status code and its mapped reason. -/
def errorMessageFor (status : Nat) : String :=
  "Server error (Status " ++ toString status ++ "): " ++ statusReason status

/-- One entry of the serialized `conversation_history` (lines 113-116). -/
structure HistEntry where
  role : String
  content : String
deriving DecidableEq, Repr

/-- The mapping applied to each prior message (lines 113-116):
`role` is renamed from the message tag, `content` is kept. -/
def toHistEntry (m : Message) : HistEntry :=
  { role := if m.type = MsgType.user then "user" else "assistant"
    content := m.content }

/-- The serialized submission request body (lines 110-117), with the
ISO-8601 timestamp field abstracted away. -/
structure RequestBody where
  message : String
  conversation_history : List HistEntry
deriving DecidableEq, Repr

/-- The observable outcome of one `handleSubmit` invocation: the final
message list, the number of status queries issued by the poll cycle it
started (0 if none), and the request body sent (`none` if no fetch was
issued). -/
structure CycleResult where
  messages : List Message
  pollAttempts : Nat
  request : Option RequestBody
deriving DecidableEq, Repr

/-- The network environment of one submit/poll cycle: the result of the
submission fetch and, indexed by retry count, the results of the status
fetches. -/
structure SubmitEnv where
  submitResult : SubmitFetch
  pollEnv : Nat → PollFetch

/-- `handleSubmit` (lines 91-178), modelled as a pure function of the
environment.  Mirrors the source: the `!input.trim()` guard, the append of
the user message, the request body built from the pre-append `messages`
closure, `response.ok` dispatch, content-type sniffing, the plain-text
early return, the `data.messageId` truthiness check that starts polling,
and the single `catch` that appends the error's message as a bot reply. -/
def handleSubmit (env : SubmitEnv) (input : String) (messages : List Message) :
    CycleResult :=
  if (jsTrim input).isEmpty then
    { messages := messages, pollAttempts := 0, request := none }
  else
    let userMessage : Message := { type := MsgType.user, content := input }
    let messages1 := messages ++ [userMessage]
    let req : RequestBody :=
      { message := input, conversation_history := messages.map toHistEntry }
    match env.submitResult with
    | SubmitFetch.netErr emsg =>
      { messages := messages1 ++ [{ type := MsgType.bot, content := emsg }]
        pollAttempts := 0, request := some req }
    | SubmitFetch.resp r =>
      if httpOk r.status then
        if r.isJson then
          match r.parsed with
          | Except.error emsg =>
            { messages := messages1 ++ [{ type := MsgType.bot, content := emsg }]
              pollAttempts := 0, request := some req }
          | Except.ok d =>
            if jsTruthy d.messageId then
              let pr := pollForResponse env.pollEnv 0
              { messages := messages1 ++ pr.1
                pollAttempts := pr.2, request := some req }
            else
              { messages := messages1 ++ [{ type := MsgType.bot, content := noMessageIdError }]
                pollAttempts := 0, request := some req }
        else
          { messages := messages1 ++ [{ type := MsgType.bot, content := r.textBody }]
            pollAttempts := 0, request := some req }
      else
        { messages := messages1 ++ [{ type := MsgType.bot, content := errorMessageFor r.status }]
          pollAttempts := 0, request := some req }

/-! ## Helper lemmas -/

/-- When every status query reports in-progress (202), the poll loop started
at `retries` issues exactly `31 - retries` further queries and ends with the
timeout message. -/
theorem poll_all_202 (env : Nat → PollFetch)
    (hall : ∀ n, ∃ r, env n = PollFetch.resp r ∧ r.status = 202) :
    ∀ k retries, retries + k = 31 →
      pollForResponse env retries
        = ([{ type := MsgType.bot, content := timeoutReply }], k) := by
  intro k
  induction k with
  | zero =>
    intro retries h
    have h31 : retries = 31 := by omega
    subst h31
    rw [pollForResponse]
    simp
  | succ n ih =>
    intro retries h
    have hle : ¬ retries > 30 := by omega
    obtain ⟨r, henv, h202⟩ := hall retries
    rw [pollForResponse]
    simp [hle, henv, h202, ih (retries + 1) (by omega)]

/-- The poll loop always appends exactly one bot message, whatever the
environment does. -/
theorem poll_appends_one (env : Nat → PollFetch) :
    ∀ k retries, 31 ≤ retries + k →
      ∃ c, (pollForResponse env retries).1
        = [{ type := MsgType.bot, content := c }] := by
  intro k
  induction k with
  | zero =>
    intro retries h
    have hgt : retries > 30 := by omega
    rw [pollForResponse]
    simp [hgt]
  | succ n ih =>
    intro retries h
    by_cases hgt : retries > 30
    · rw [pollForResponse]
      simp [hgt]
    · rw [pollForResponse]
      simp [hgt]
      cases henv : env retries with
      | netErr => simp
      | resp r =>
        simp
        by_cases h202 : r.status = 202
        · simp [h202]
          exact ih (retries + 1) (by omega)
        · simp [h202]
          by_cases hj : r.isJson
          · simp [hj]
            cases hp : r.parsed with
            | none => simp
            | some d => simp
          · simp [hj]

/-- For any non-blank input, the request sent carries the submitted text and
the mapped history of the pre-submission messages, in every environment. -/
theorem handleSubmit_request_eq (env : SubmitEnv) (input : String)
    (messages : List Message) (h : (jsTrim input).isEmpty = false) :
    (handleSubmit env input messages).request
      = some { message := input
               conversation_history := messages.map toHistEntry } := by
  unfold handleSubmit
  simp only [h, Bool.false_eq_true, if_false]
  cases env.submitResult with
  | netErr e => rfl
  | resp r =>
    by_cases hok : httpOk r.status <;> simp only [hok, if_true, if_false]
    · by_cases hj : r.isJson <;> simp only [hj, if_true, if_false]
      · cases r.parsed with
        | error e => rfl
        | ok d =>
          by_cases ht : jsTruthy d.messageId
          · simp only [ht, if_true]
          · simp only [ht, Bool.false_eq_true, if_false]
      · rfl
    · rfl

/-! ## Claims -/

/-- C1: if every status query for a job returns the in-progress status (202),
the poll cycle performs exactly 31 status-query attempts (the initial attempt
plus 30 retries, each scheduled after a fixed 1000-ms delay) and then
terminates by appending exactly one timeout failure message, issuing no
further queries. -/
theorem C1_always_in_progress_gives_31_attempts_then_timeout
    (env : Nat → PollFetch)
    (hall : ∀ n, ∃ r, env n = PollFetch.resp r ∧ r.status = 202) :
    pollForResponse env 0
      = ([{ type := MsgType.bot, content := timeoutReply }], 31) ∧
    retryDelayMs = 1000 :=
  ⟨poll_all_202 env hall 31 0 rfl, rfl⟩

/-- A status environment that always answers 202 (in progress). -/
def wPollAll202 : Nat → PollFetch :=
  fun _ => PollFetch.resp { status := 202, isJson := false, parsed := none, textBody := "" }

/-- Witness for C1 at the concrete always-202 environment. -/
theorem C1_always_in_progress_gives_31_attempts_then_timeout_witness :
    (∀ n, ∃ r, wPollAll202 n = PollFetch.resp r ∧ r.status = 202) ∧
    (pollForResponse wPollAll202 0
       = ([{ type := MsgType.bot, content := timeoutReply }], 31) ∧
     retryDelayMs = 1000) :=
  ⟨fun _ => ⟨_, rfl, rfl⟩,
   C1_always_in_progress_gives_31_attempts_then_timeout wPollAll202
     (fun _ => ⟨_, rfl, rfl⟩)⟩

/-- C2: for every submission, the `conversation_history` of the serialized
request equals the pre-submission message sequence in original order, each
message mapped to role/content with role `user` for user messages and
`assistant` for bot messages; the submitted message itself is not included
(the history has exactly the pre-submission length). -/
theorem C2_history_is_prior_transcript (env : SubmitEnv) (input : String)
    (messages : List Message) (h : (jsTrim input).isEmpty = false) :
    (handleSubmit env input messages).request
      = some { message := input
               conversation_history := messages.map toHistEntry } ∧
    (∀ m ∈ messages, toHistEntry m
      = { role := if m.type = MsgType.user then "user" else "assistant"
          content := m.content }) ∧
    (messages.map toHistEntry).length = messages.length :=
  ⟨handleSubmit_request_eq env input messages h,
   fun _ _ => rfl, messages.length_map toHistEntry⟩

/-- A submission environment whose fetch rejects with a network error. -/
def wNetErrEnv : SubmitEnv :=
  { submitResult := SubmitFetch.netErr "Failed to fetch"
    pollEnv := fun _ => PollFetch.netErr }

/-- Witness for C2 on the initial conversation and a concrete input. -/
theorem C2_history_is_prior_transcript_witness :
    ((jsTrim "hi").isEmpty = false) ∧
    ((handleSubmit wNetErrEnv "hi" initialMessages).request
       = some { message := "hi"
                conversation_history := initialMessages.map toHistEntry } ∧
     (∀ m ∈ initialMessages, toHistEntry m
       = { role := if m.type = MsgType.user then "user" else "assistant"
           content := m.content }) ∧
     (initialMessages.map toHistEntry).length = initialMessages.length) :=
  ⟨by decide, C2_history_is_prior_transcript wNetErrEnv "hi" initialMessages (by decide)⟩

/-- C3: a successful (2xx) plain-text (non-JSON) submission response appends
the entire body as exactly one bot message, and no poll attempt is issued. -/
theorem C3_plain_text_immediate_reply (env : SubmitEnv) (input : String)
    (messages : List Message) (r : SubmitHttp)
    (h : (jsTrim input).isEmpty = false)
    (hr : env.submitResult = SubmitFetch.resp r)
    (hok : httpOk r.status = true) (hj : r.isJson = false) :
    (handleSubmit env input messages).messages
      = messages ++ [{ type := MsgType.user, content := input },
                     { type := MsgType.bot, content := r.textBody }] ∧
    (handleSubmit env input messages).pollAttempts = 0 := by
  unfold handleSubmit
  simp [h, hr, hok, hj]

/-- A successful plain-text submission response. -/
def wPlainTextResp : SubmitHttp :=
  { status := 200, isJson := false
    parsed := Except.ok { messageId := none }, textBody := "hello there" }

/-- Environment delivering the plain-text response. -/
def wPlainTextEnv : SubmitEnv :=
  { submitResult := SubmitFetch.resp wPlainTextResp
    pollEnv := fun _ => PollFetch.netErr }

/-- Witness for C3 at a concrete 200 text/plain response. -/
theorem C3_plain_text_immediate_reply_witness :
    ((jsTrim "hi").isEmpty = false) ∧
    ((handleSubmit wPlainTextEnv "hi" []).messages
       = [] ++ [{ type := MsgType.user, content := "hi" },
                { type := MsgType.bot, content := wPlainTextResp.textBody }] ∧
     (handleSubmit wPlainTextEnv "hi" []).pollAttempts = 0) :=
  ⟨by decide,
   C3_plain_text_immediate_reply wPlainTextEnv "hi" [] wPlainTextResp
     (by decide) rfl (by decide) rfl⟩

/-- C4: every non-success submission status yields exactly one appended bot
message whose text carries both the status code and the mapped reason
(400 invalid request format, 401 unauthorized, 403 forbidden, 429
rate-limited, 500 internal error, anything else unexpected), with zero poll
attempts. -/
theorem C4_non_success_status_mapped (env : SubmitEnv) (input : String)
    (messages : List Message) (r : SubmitHttp)
    (h : (jsTrim input).isEmpty = false)
    (hr : env.submitResult = SubmitFetch.resp r)
    (hok : httpOk r.status = false) :
    (handleSubmit env input messages).messages
      = messages ++ [{ type := MsgType.user, content := input },
                     { type := MsgType.bot, content := errorMessageFor r.status }] ∧
    (handleSubmit env input messages).pollAttempts = 0 ∧
    errorMessageFor r.status
      = "Server error (Status " ++ toString r.status ++ "): "
          ++ statusReason r.status ∧
    statusReason 400 = "Invalid request format" ∧
    statusReason 401 = "Unauthorized access" ∧
    statusReason 403 = "Access forbidden" ∧
    statusReason 429 = "Too many requests, please try again later" ∧
    statusReason 500 = "Internal server error" ∧
    (∀ s, s ≠ 400 → s ≠ 401 → s ≠ 403 → s ≠ 429 → s ≠ 500 →
      statusReason s = "Unexpected error occurred") := by
  refine ⟨?_, ?_, rfl, rfl, rfl, rfl, rfl, rfl, ?_⟩
  · unfold handleSubmit; simp [h, hr, hok]
  · unfold handleSubmit; simp [h, hr, hok]
  · intro s h4 h1 h3 h9 h5
    unfold statusReason
    simp [h4, h1, h3, h9, h5]

/-- A rate-limited (429) submission response. -/
def wRateResp : SubmitHttp :=
  { status := 429, isJson := false
    parsed := Except.ok { messageId := none }, textBody := "" }

/-- Environment delivering the 429 response. -/
def wRateEnv : SubmitEnv :=
  { submitResult := SubmitFetch.resp wRateResp
    pollEnv := fun _ => PollFetch.netErr }

/-- Witness for C4 at a concrete 429 response. -/
theorem C4_non_success_status_mapped_witness :
    ((jsTrim "hi").isEmpty = false) ∧
    (handleSubmit wRateEnv "hi" []).messages
      = [] ++ [{ type := MsgType.user, content := "hi" },
               { type := MsgType.bot, content := errorMessageFor 429 }] ∧
    (handleSubmit wRateEnv "hi" []).pollAttempts = 0 ∧
    errorMessageFor 429
      = "Server error (Status 429): Too many requests, please try again later" :=
  ⟨by decide,
   (C4_non_success_status_mapped wRateEnv "hi" [] wRateResp
      (by decide) rfl (by decide)).1,
   (C4_non_success_status_mapped wRateEnv "hi" [] wRateResp
      (by decide) rfl (by decide)).2.1,
   by decide⟩

/-- C5: the conversation log is append-only: in every environment and for
every input, one submit/poll cycle leaves the message sequence unchanged or
extends it at the end, so its length never shrinks and existing messages are
never edited or deleted. -/
theorem C5_append_only (env : SubmitEnv) (input : String)
    (messages : List Message) :
    ∃ tail, (handleSubmit env input messages).messages = messages ++ tail ∧
      messages.length ≤ (handleSubmit env input messages).messages.length := by
  suffices h : ∃ tail, (handleSubmit env input messages).messages
      = messages ++ tail by
    obtain ⟨tail, ht⟩ := h
    exact ⟨tail, ht, by simp [ht]⟩
  unfold handleSubmit
  by_cases h : (jsTrim input).isEmpty
  · exact ⟨[], by simp [h]⟩
  · simp only [h, if_false, Bool.false_eq_true]
    cases env.submitResult with
    | netErr e =>
      exact ⟨[{ type := MsgType.user, content := input },
              { type := MsgType.bot, content := e }], by simp⟩
    | resp r =>
      by_cases hok : httpOk r.status <;> simp only [hok, if_true, if_false]
      · by_cases hj : r.isJson <;> simp only [hj, if_true, if_false]
        · cases r.parsed with
          | error e =>
            exact ⟨[{ type := MsgType.user, content := input },
                    { type := MsgType.bot, content := e }], by simp⟩
          | ok d =>
            by_cases ht : jsTruthy d.messageId <;>
              simp only [ht, if_true, if_false]
            · exact ⟨{ type := MsgType.user, content := input }
                       :: (pollForResponse env.pollEnv 0).1, by simp⟩
            · exact ⟨[{ type := MsgType.user, content := input },
                      { type := MsgType.bot, content := noMessageIdError }], by simp⟩
        · exact ⟨[{ type := MsgType.user, content := input },
                  { type := MsgType.bot, content := r.textBody }], by simp⟩
      · exact ⟨[{ type := MsgType.user, content := input },
                { type := MsgType.bot, content := errorMessageFor r.status }], by simp⟩

/-- C6: a successful JSON submission response whose parsed body has no
`messageId` field fails with the no-message-id error surfaced as one bot
message, and no polling is started. -/
theorem C6_missing_job_id_fails (env : SubmitEnv) (input : String)
    (messages : List Message) (r : SubmitHttp) (d : SubmitData)
    (h : (jsTrim input).isEmpty = false)
    (hr : env.submitResult = SubmitFetch.resp r)
    (hok : httpOk r.status = true) (hj : r.isJson = true)
    (hp : r.parsed = Except.ok d) (hm : d.messageId = none) :
    (handleSubmit env input messages).messages
      = messages ++ [{ type := MsgType.user, content := input },
                     { type := MsgType.bot, content := noMessageIdError }] ∧
    (handleSubmit env input messages).pollAttempts = 0 := by
  unfold handleSubmit
  simp [h, hr, hok, hj, hp, hm, jsTruthy]

/-- A successful JSON submission response missing the `messageId` field. -/
def wNoIdResp : SubmitHttp :=
  { status := 200, isJson := true
    parsed := Except.ok { messageId := none }, textBody := "" }

/-- Environment delivering the JSON response without a job id. -/
def wNoIdEnv : SubmitEnv :=
  { submitResult := SubmitFetch.resp wNoIdResp
    pollEnv := fun _ => PollFetch.netErr }

/-- Witness for C6 at a concrete 200 JSON response with no `messageId`. -/
theorem C6_missing_job_id_fails_witness :
    ((jsTrim "hi").isEmpty = false) ∧
    ((handleSubmit wNoIdEnv "hi" []).messages
       = [] ++ [{ type := MsgType.user, content := "hi" },
                { type := MsgType.bot, content := noMessageIdError }] ∧
     (handleSubmit wNoIdEnv "hi" []).pollAttempts = 0) :=
  ⟨by decide,
   C6_missing_job_id_fails wNoIdEnv "hi" [] wNoIdResp
     { messageId := none } (by decide) rfl (by decide) rfl rfl rfl⟩

/-- C7: a final (non-202) JSON poll response whose body is missing the reply
content still completes the poll with exactly one appended bot message
carrying the fallback placeholder text, not an error. -/
theorem C7_missing_content_falls_back (env : Nat → PollFetch) (retries : Nat)
    (r : PollHttp) (d : PollData) (hle : retries ≤ 30)
    (henv : env retries = PollFetch.resp r) (h202 : r.status ≠ 202)
    (hj : r.isJson = true) (hp : r.parsed = some d)
    (hc : d.responseContent = none) :
    pollForResponse env retries
      = ([{ type := MsgType.bot, content := fallbackReply }], 1) := by
  have hgt : ¬ retries > 30 := by omega
  rw [pollForResponse]
  simp [hgt, henv, h202, hj, hp, hc, jsOrElse]

/-- A status environment answering a final JSON response with no content. -/
def wNoContentPollEnv : Nat → PollFetch :=
  fun _ => PollFetch.resp
    { status := 200, isJson := true
      parsed := some { responseContent := none }, textBody := "" }

/-- Witness for C7 at a concrete 200 JSON status response with no content. -/
theorem C7_missing_content_falls_back_witness :
    (0 ≤ 30) ∧
    pollForResponse wNoContentPollEnv 0
      = ([{ type := MsgType.bot, content := fallbackReply }], 1) :=
  ⟨by decide,
   C7_missing_content_falls_back wNoContentPollEnv 0
     { status := 200, isJson := true
       parsed := some { responseContent := none }, textBody := "" }
     { responseContent := none } (by decide) rfl (by decide) rfl rfl rfl⟩

/-- C8: in every environment (network rejection, bad status, parse failure,
missing job id, poll failure, timeout, or success), a non-blank submission
appends exactly the user message followed by exactly one bot message at the
end of the log: no error escapes the cycle and no duplicate or out-of-order
append occurs. -/
theorem C8_every_outcome_one_bot_reply (env : SubmitEnv) (input : String)
    (messages : List Message) (h : (jsTrim input).isEmpty = false) :
    ∃ reply, (handleSubmit env input messages).messages
      = messages ++ [{ type := MsgType.user, content := input },
                     { type := MsgType.bot, content := reply }] := by
  unfold handleSubmit
  simp only [h, Bool.false_eq_true, if_false]
  cases env.submitResult with
  | netErr e => exact ⟨e, by simp⟩
  | resp r =>
    by_cases hok : httpOk r.status <;> simp only [hok, if_true, if_false]
    · by_cases hj : r.isJson <;> simp only [hj, if_true, if_false]
      · cases r.parsed with
        | error e => exact ⟨e, by simp⟩
        | ok d =>
          by_cases ht : jsTruthy d.messageId <;> simp only [ht, if_true, if_false]
          · obtain ⟨c, hc⟩ := poll_appends_one env.pollEnv 31 0 (by omega)
            exact ⟨c, by simp [hc]⟩
          · exact ⟨noMessageIdError, by simp⟩
      · exact ⟨r.textBody, by simp⟩
    · exact ⟨errorMessageFor r.status, by simp⟩

/-- Witness for C8 at the concrete network-rejecting environment. -/
theorem C8_every_outcome_one_bot_reply_witness :
    ((jsTrim "hi").isEmpty = false) ∧
    ∃ reply, (handleSubmit wNetErrEnv "hi" []).messages
      = [] ++ [{ type := MsgType.user, content := "hi" },
               { type := MsgType.bot, content := reply }] :=
  ⟨by decide, C8_every_outcome_one_bot_reply wNetErrEnv "hi" [] (by decide)⟩

/-- C9: a blank (empty or whitespace-only) input is a no-op: the message
list is unchanged, no request is sent, and no poll attempt is issued. -/
theorem C9_blank_input_is_noop (env : SubmitEnv) (input : String)
    (messages : List Message) (h : (jsTrim input).isEmpty = true) :
    handleSubmit env input messages
      = { messages := messages, pollAttempts := 0, request := none } := by
  unfold handleSubmit
  simp [h]

/-- Witness for C9 at a whitespace-only input. -/
theorem C9_blank_input_is_noop_witness :
    ((jsTrim "   ").isEmpty = true) ∧
    handleSubmit wNetErrEnv "   " initialMessages
      = { messages := initialMessages, pollAttempts := 0, request := none } :=
  ⟨by decide, C9_blank_input_is_noop wNetErrEnv "   " initialMessages (by decide)⟩

/-- C10: the conversation starts with exactly one bot greeting, so the very
first submission sends a one-entry history containing the greeting under
role `assistant`, never an empty list. -/
theorem C10_first_history_is_greeting (env : SubmitEnv) (input : String)
    (h : (jsTrim input).isEmpty = false) :
    initialMessages.length = 1 ∧
    initialMessages = [{ type := MsgType.bot, content := greetingText }] ∧
    (handleSubmit env input initialMessages).request
      = some { message := input
               conversation_history := [{ role := "assistant", content := greetingText }] } :=
  ⟨rfl, rfl, handleSubmit_request_eq env input initialMessages h⟩

/-- Witness for C10 at a concrete input. -/
theorem C10_first_history_is_greeting_witness :
    ((jsTrim "hi").isEmpty = false) ∧
    (initialMessages.length = 1 ∧
     initialMessages = [{ type := MsgType.bot, content := greetingText }] ∧
     (handleSubmit wNetErrEnv "hi" initialMessages).request
       = some { message := "hi"
                conversation_history := [{ role := "assistant", content := greetingText }] }) :=
  ⟨by decide, C10_first_history_is_greeting wNetErrEnv "hi" (by decide)⟩
